import Mathlib

/-!
Verification of the essensfindung restaurant-selection pipeline.

Shallow embedding of the Python sources:
  * `services/service_res.py`  — selection pipeline (filter, enrichment, draw, bookkeeping)
  * `infrastructure/gapi.py`   — paginated external place search plus per-place details
  * `db/crud/bewertung.py`     — rating (Bewertung) store operations

Conventions of the embedding:
  * Ratings are `Option Int` (`None` in Python becomes `none`); the code never
    does fractional arithmetic on them, so `Int` is adequate.
  * Stateful database code becomes explicit state passing over a `DB` value;
    fallible Python code (raised exceptions) returns `Except String α` whose
    error string names the Python exception.
  * `random.choices(pop, weights, k=1)` (CPython >= 3.9, which this code
    requires via its use of `list[...]` generics) is modelled by
    `randomChoices1`, with the float draw `random() * total` abstracted to an
    integer `r` with `0 <= r < total`; an empty population raises IndexError
    (`cum_weights[-1]` on an empty list) and an all-zero weight vector raises
    ValueError, exactly as in the library source.
  * Geographic coordinates are floats carried opaquely by the code (only ever
    interpolated into an HTTP query string, never computed with); they are not
    part of the model.
-/

namespace Essensfindung

/-- Restaurant candidate, after `schemes/scheme_rest.py` / `models/restaurant.py`
(pydantic models, hence structural equality): opaque `place_id`, `name`,
external rating `rating` (may be absent), the requesting user's `own_rating`
(absent until enrichment), and the detail fields filled in by `place_details`. -/
structure Restaurant where
  place_id : String
  name : String
  rating : Option Int
  own_rating : Option Int
  homepage : Option String
  maps_url : Option String
  phone_number : Option String
  adr : Option String
deriving DecidableEq, Repr

/-- Default restaurant value, used only as the (never-exposed) default of
`List.getD` in the model of `random.choices`. -/
def dummyRestaurant : Restaurant :=
  { place_id := "", name := "", rating := none, own_rating := none,
    homepage := none, maps_url := none, phone_number := none, adr := none }

/-- One page of the Google nearby-search response: its parsed results and the
optional `next_page_token`. -/
structure GPage where
  results : List Restaurant
  next_page_token : Option String
deriving Repr

/-- The fields of one Google place-details response that `place_details` reads. -/
structure PlaceDetails where
  website : Option String
  url : Option String
  international_phone_number : Option String
  formatted_address : Option String
deriving Repr

/-- Embedding of `gapi.nearby_search` (infrastructure/gapi.py:49-75).  The
external service is a function from the page token sent (`none` on the first
request) to the page returned.  The Python recursion follows
`next_page_token`s, appending each further page behind the current results;
it has no page bound, so the embedding carries fuel, `none` marking the
(never reached on a well-behaved service) fuel exhaustion. -/
def nearby_search (service : Option String → GPage) (fuel : Nat)
    (next_page_token : Option String) : Option (List Restaurant) :=
  match fuel with
  | 0 => none
  | fuel + 1 =>
    let page := service next_page_token
    match page.next_page_token with
    | some tok => (nearby_search service fuel (some tok)).map (page.results ++ ·)
    | none => some page.results

/-- Embedding of `gapi.place_details` (infrastructure/gapi.py:78-105): for each
restaurant, look up its details by `place_id` and overwrite the four detail
fields.  The Python loop mutates each restaurant and appends it to a fresh
list, which as a value transformation is exactly a map. -/
def place_details (details : String → PlaceDetails) (restaurants : List Restaurant) :
    List Restaurant :=
  restaurants.map (fun restaurant =>
    let d := details restaurant.place_id
    { restaurant with
      homepage := d.website
      maps_url := d.url
      phone_number := d.international_phone_number
      adr := d.formatted_address })

/-- Embedding of `gapi.search_restaurant` (infrastructure/gapi.py:18-46).  The
Python function computes `restaurants = nearby_search(...)`, then
`restaurants = place_details(restaurants)`, and then falls off the end of the
function without a `return` statement — so it returns `None`.  The embedding
performs the same computations and, faithfully, returns `none`. -/
def search_restaurant (service : Option String → GPage)
    (details : String → PlaceDetails) (fuel : Nat) : Option (List Restaurant) :=
  let restaurants := nearby_search service fuel none
  let _enriched := restaurants.map (place_details details)
  none

/-- Filter criteria, after `schemes/scheme_filter.py` `FilterRest`: cuisine
keyword, search radius, minimum acceptable rating (the search-origin
coordinates are floats used only inside the HTTP query, see module header). -/
structure FilterRest where
  cuisine : String
  radius : Int
  rating : Int
deriving DecidableEq, Repr

/-- Python `list.remove(x)`: drop the first element structurally equal to `x`
(pydantic models compare by field values). -/
def listRemove (xs : List Restaurant) (x : Restaurant) : List Restaurant :=
  match xs with
  | [] => []
  | y :: ys => if y = x then ys else y :: listRemove ys x

/-- The loop of `filter_rating` (services/service_res.py:162-164), which
removes from `rests` while iterating over it.  A Python `for` over a list
walks an index `i` over the *current* list, so a removal shifts the next
element under the cursor and it is skipped.  `res.rating < rating` raises
`TypeError` when `res.rating` is `None`.  `fuel` makes the recursion
structural; `filter_rating` supplies `rests.length + 1`, which is at least
the number of loop steps (the index grows by one per step and the list never
grows), so the fuel-exhaustion branch is unreachable. -/
def filterRatingLoop (fuel : Nat) (rests : List Restaurant) (rating : Int)
    (i : Nat) : Except String (List Restaurant) :=
  match fuel with
  | 0 => .ok rests
  | fuel + 1 =>
    if h : i < rests.length then
      let res := rests.get ⟨i, h⟩
      match res.rating with
      | none => .error "TypeError: not supported between instances of NoneType and int"
      | some r =>
        if r < rating then
          filterRatingLoop fuel (listRemove rests res) rating (i + 1)
        else
          filterRatingLoop fuel rests rating (i + 1)
    else
      .ok rests

/-- Embedding of `filter_rating` (services/service_res.py:152-165). -/
def filter_rating (rests : List Restaurant) (rating : Int) :
    Except String (List Restaurant) :=
  filterRatingLoop (rests.length + 1) rests rating 0

/-- Embedding of `apply_filter` (services/service_res.py:139-149): applies the
only filter, the rating filter. -/
def apply_filter (rests : List Restaurant) (user_f : FilterRest) :
    Except String (List Restaurant) :=
  filter_rating rests user_f.rating

/-- The loop of `select_restaurant` (services/service_res.py:178-184): each
candidate whose `own_rating` or `rating` is `None` has that field overwritten
with `0`, and its weight `own_rating * 4 + rating * 2` is appended.  Returns
the (mutated, in Python in place) candidate list together with the weights. -/
def selectLoop : List Restaurant → List Restaurant × List Int
  | [] => ([], [])
  | res :: rest =>
    let own := res.own_rating.getD 0
    let ext := res.rating.getD 0
    let res2 : Restaurant := { res with own_rating := some own, rating := some ext }
    (res2 :: (selectLoop rest).1, (own * 4 + ext * 2) :: (selectLoop rest).2)

/-- Candidate as mutated by the `select_restaurant` loop: absent ratings
replaced by `some 0`, every other field untouched. -/
def clearNoneRatings (res : Restaurant) : Restaurant :=
  { res with own_rating := some (res.own_rating.getD 0), rating := some (res.rating.getD 0) }

/-- The weight the `select_restaurant` loop computes for a candidate. -/
def weightOf (res : Restaurant) : Int :=
  res.own_rating.getD 0 * 4 + res.rating.getD 0 * 2

/-- Sum of a weight vector (`cum_weights[-1]` in `random.choices`). -/
def sumW (ws : List Int) : Int := ws.foldr (· + ·) 0

/-- Index selected by `bisect.bisect(cum_weights, r)`: the first index whose
cumulative weight exceeds `r`. -/
def pickIndex : List Int → Int → Nat
  | [], _ => 0
  | w :: rest, r => if r < w then 0 else pickIndex rest (r - w) + 1

/-- Model of `random.choices(population, weights=weights, k=1)[0]` from
CPython >= 3.9 (see module header): an empty population raises `IndexError`
at `cum_weights[-1]`; a non-positive total raises `ValueError`; otherwise the
element at `bisect(cum_weights, random() * total, 0, len - 1)` is returned,
the draw `random() * total` abstracted as the integer `r`. -/
def randomChoices1 (population : List Restaurant) (weights : List Int) (r : Int) :
    Except String Restaurant :=
  if population.isEmpty then
    .error "IndexError: list index out of range"
  else if sumW weights ≤ 0 then
    .error "ValueError: Total of weights must be greater than zero"
  else
    .ok (population.getD (min (pickIndex weights r) (population.length - 1)) dummyRestaurant)

/-- Embedding of `select_restaurant` (services/service_res.py:168-186).  The
Python function mutates the candidates in place; the embedding returns the
mutated list alongside the drawn candidate so that the side effect is
visible. `r` abstracts the library's random draw. -/
def select_restaurant (rests : List Restaurant) (r : Int) :
    Except String (List Restaurant × Restaurant) :=
  let mutated := (selectLoop rests).1
  let weights := (selectLoop rests).2
  match randomChoices1 mutated weights r with
  | .ok chosen => .ok (mutated, chosen)
  | .error e => .error e

/-- A row of the `bewertung` table (db/crud/bewertung.py): the rating a user
(`person_email`) gave a restaurant (`place_id`), with comment and numeric
rating as nullable columns.  The auto-set timestamp column is not modelled
(no claim touches it). -/
structure Bewertung where
  person_email : String
  place_id : String
  kommentar : Option String
  rating : Option Int
deriving DecidableEq, Repr

/-- Input scheme `RestBewertungCreate` (schemes/scheme_rest.py, not in src):
per its uses in `create_bewertung` it carries the person's email, the
restaurant's place id, and optional comment and rating (defaulting to absent
when, as in `search_for_restaurant`, only person and restaurant are given). -/
structure RestBewertungCreate where
  person_email : String
  restaurant_place_id : String
  comment : Option String
  rating : Option Int
deriving DecidableEq, Repr

/-- Return scheme `RestBewertungReturn` (comment and rating of the row; the
timestamp column is not modelled). -/
structure RestBewertungReturn where
  comment : Option String
  rating : Option Int
deriving DecidableEq, Repr

/-- The relational store: `person` rows (by email), `restaurant` rows (by
place id), and `bewertung` rows.  Per spec section 5 the store enforces no
storage-level uniqueness constraint on ratings. -/
structure DB where
  users : List String
  restaurants : List String
  bewertungen : List Bewertung
deriving DecidableEq, Repr

/-- Modelled from the spec: `get_user_by_mail` (db/crud/user.py, not in src)
is an exact-match lookup of a person row by email. -/
def get_user_by_mail (db : DB) (mail : String) : Option String :=
  db.users.find? (· == mail)

/-- Modelled from the spec: `get_restaurant_by_id` (db/crud/restaurant.py, not
in src) is an exact-match lookup of a restaurant row by its place identifier
("restaurants keyed by an opaque place identifier"). -/
def get_restaurant_by_id (db : DB) (place_id : String) : Option String :=
  db.restaurants.find? (· == place_id)

/-- Modelled from the spec: `create_restaurant` (db/crud/restaurant.py, not in
src) inserts a restaurant row keyed by its place identifier. -/
def create_restaurant (db : DB) (rest : Restaurant) : DB :=
  { db with restaurants := db.restaurants ++ [rest.place_id] }

/-- Embedding of `get_bewertung_from_user_to_rest` (db/crud/bewertung.py:17-37):
inner joins with the person and restaurant tables (so both rows must exist),
filters on the user's email and the restaurant's place id, `.first()`. -/
def get_bewertung_from_user_to_rest (db : DB) (user_email : String)
    (place_id : String) : Option Bewertung :=
  if db.users.contains user_email && db.restaurants.contains place_id then
    db.bewertungen.find? (fun b => b.person_email == user_email && b.place_id == place_id)
  else
    none

/-- The `Bewertung` row `create_bewertung` builds from its input. -/
def mkBewertungRow (assessment : RestBewertungCreate) : Bewertung :=
  { person_email := assessment.person_email
    place_id := assessment.restaurant_place_id
    kommentar := assessment.comment
    rating := assessment.rating }

/-- Embedding of `create_bewertung` (db/crud/bewertung.py:57-81): raises
`InvalidRequestError` when the referenced user, then when the referenced
restaurant, does not exist — before any mutation — and otherwise appends the
new row and returns it.  There is no duplicate check. -/
def create_bewertung (db : DB) (assessment : RestBewertungCreate) :
    Except String (DB × Bewertung) :=
  match get_user_by_mail db assessment.person_email with
  | none => .error "InvalidRequestError: User does not exist"
  | some _ =>
    match get_restaurant_by_id db assessment.restaurant_place_id with
    | none => .error "InvalidRequestError: Restaurant does not exist"
    | some _ =>
      let row := mkBewertungRow assessment
      .ok ({ db with bewertungen := db.bewertungen ++ [row] }, row)

/-- Row predicate of the `update_bewertung` query: matches on the old
identity's (user email, place id) pair. -/
def matchesOld (old_bewertung : RestBewertungCreate) (b : Bewertung) : Bool :=
  b.person_email == old_bewertung.person_email &&
    b.place_id == old_bewertung.restaurant_place_id

/-- Embedding of `update_bewertung` (db/crud/bewertung.py:84-104): a bulk
UPDATE of `kommentar` and `rating` on every row matching the old (user,
restaurant) identity — returning the affected row count, which the Python
code computes but does not inspect — followed by a re-read under the *new*
identity via `get_bewertung_from_user_to_rest`. -/
def update_bewertung (db : DB) (old_bewertung new_bewertung : RestBewertungCreate) :
    DB × Nat × Option Bewertung :=
  let affected := db.bewertungen.countP (fun b => matchesOld old_bewertung b)
  let rows := db.bewertungen.map (fun b =>
    if matchesOld old_bewertung b then
      { b with kommentar := new_bewertung.comment, rating := new_bewertung.rating }
    else b)
  let db2 : DB := { db with bewertungen := rows }
  (db2, affected,
    get_bewertung_from_user_to_rest db2 new_bewertung.person_email
      new_bewertung.restaurant_place_id)

/-- Embedding of `delete_bewertung` (db/crud/bewertung.py:107-122): bulk
delete of the rows matching the (user email, place id) pair, returning the
number of rows removed. -/
def delete_bewertung (db : DB) (user_email : String) (place_id : String) : DB × Nat :=
  let keep := db.bewertungen.filter
    (fun b => !(b.person_email == user_email && b.place_id == place_id))
  ({ db with bewertungen := keep }, db.bewertungen.length - keep.length)

/-- Embedding of `add_assessment` (services/service_res.py:43-63): calls
`create_bewertung` and wraps the created row; a raised error is re-raised
unchanged. -/
def add_assessment (db : DB) (assessment : RestBewertungCreate) :
    Except String (DB × RestBewertungReturn) :=
  match create_bewertung db assessment with
  | .ok (db2, created) => .ok (db2, { comment := created.kommentar, rating := created.rating })
  | .error e => .error e

/-- Embedding of `update_assessment` (services/service_res.py:66-82): calls
`update_bewertung` and unconditionally reads `.kommentar` / `.rating` off its
result — which is `None` when the re-read found no row, so Python raises
`AttributeError` there. -/
def update_assessment (db : DB) (old_assessment new_assessment : RestBewertungCreate) :
    Except String (DB × RestBewertungReturn) :=
  let (db2, _affected, updated) := update_bewertung db old_assessment new_assessment
  match updated with
  | none => .error "AttributeError: NoneType object has no attribute kommentar"
  | some b => .ok (db2, { comment := b.kommentar, rating := b.rating })

/-- Embedding of `fill_user_rating` (services/service_res.py:120-136): for
each candidate, look up the requester's prior rating and, when found, attach
its rating value as `own_rating`. -/
def fill_user_rating (db : DB) (rests : List Restaurant) (user_email : String) :
    List Restaurant :=
  rests.map (fun rest =>
    match get_bewertung_from_user_to_rest db user_email rest.place_id with
    | some assessment => { rest with own_rating := assessment.rating }
    | none => rest)

/-- Embedding of `search_for_restaurant` (services/service_res.py:99-117).
The call to `gapi.search_restaurant` is abstracted as the input
`google_rests` (the candidate list the external search produced); `r`
abstracts the random draw.  After the draw the code persists the restaurant
and records a rating for the user exactly when `get_restaurant_by_id` finds
the restaurant *already present* (the condition the spec flags as
inverted-looking). -/
def search_for_restaurant (db : DB) (user_email : String)
    (google_rests : List Restaurant) (user_f : FilterRest) (r : Int) :
    Except String (DB × Restaurant) := do
  let filterd_rests ← apply_filter google_rests user_f
  let user_rests := fill_user_rating db filterd_rests user_email
  let (_mutated, restaurant) ← select_restaurant user_rests r
  if (get_restaurant_by_id db restaurant.place_id).isSome then
    let db1 := create_restaurant db restaurant
    let (db2, _) ← add_assessment db1
      { person_email := user_email, restaurant_place_id := restaurant.place_id,
        comment := none, rating := none }
    return (db2, restaurant)
  else
    return (db, restaurant)

/-! Helper lemmas. -/

theorem listRemove_sublist (xs : List Restaurant) (x : Restaurant) :
    (listRemove xs x).Sublist xs := by
  induction xs with
  | nil => simp [listRemove]
  | cons y ys ih =>
    by_cases h : y = x
    · simp [listRemove, h]
    · simpa [listRemove, h] using ih.cons₂ y

theorem filterRatingLoop_sublist (fuel : Nat) :
    ∀ (rests : List Restaurant) (rating : Int) (i : Nat) (out : List Restaurant),
      filterRatingLoop fuel rests rating i = .ok out → out.Sublist rests := by
  induction fuel with
  | zero =>
    intro rests rating i out h
    simp only [filterRatingLoop] at h
    cases h
    exact List.Sublist.refl _
  | succ fuel ih =>
    intro rests rating i out h
    simp only [filterRatingLoop] at h
    split at h
    · rename_i hi
      split at h
      · cases h
      · rename_i r hr
        split at h
        · exact (ih _ _ _ _ h).trans (listRemove_sublist _ _)
        · exact ih _ _ _ _ h
    · cases h
      exact List.Sublist.refl _

theorem selectLoop_fst (rests : List Restaurant) :
    (selectLoop rests).1 = rests.map clearNoneRatings := by
  induction rests with
  | nil => rfl
  | cons res rest ih => simp [selectLoop, clearNoneRatings, ih]

theorem selectLoop_snd (rests : List Restaurant) :
    (selectLoop rests).2 = rests.map weightOf := by
  induction rests with
  | nil => rfl
  | cons res rest ih => simp [selectLoop, weightOf, ih]

theorem sumW_eq_zero_of_all_zero (ws : List Int) (h : ∀ w ∈ ws, w = 0) :
    sumW ws = 0 := by
  induction ws with
  | nil => rfl
  | cons w rest ih =>
    have hw : w = 0 := h w (List.mem_cons_self _ _)
    have := ih (fun v hv => h v (List.mem_cons_of_mem _ hv))
    simp [sumW] at this ⊢
    simp [hw, this]

theorem pickIndex_lt (ws : List Int) (r : Int) (h0 : 0 ≤ r) (hr : r < sumW ws) :
    pickIndex ws r < ws.length := by
  induction ws generalizing r with
  | nil =>
    exfalso
    simp [sumW] at hr
    omega
  | cons w rest ih =>
    by_cases hw : r < w
    · simp [pickIndex, hw]
    · have h1 : 0 ≤ r - w := by omega
      have h2 : r - w < sumW rest := by
        simp [sumW] at hr ⊢
        omega
      simpa [pickIndex, hw] using ih (r - w) h1 h2

theorem pickIndex_pos_weight (ws : List Int) (r : Int) (h0 : 0 ≤ r)
    (hr : r < sumW ws) : 0 < ws.getD (pickIndex ws r) 0 := by
  induction ws generalizing r with
  | nil =>
    exfalso
    simp [sumW] at hr
    omega
  | cons w rest ih =>
    by_cases hw : r < w
    · simp [pickIndex, hw]
      omega
    · have h1 : 0 ≤ r - w := by omega
      have h2 : r - w < sumW rest := by
        simp [sumW] at hr ⊢
        omega
      simpa [pickIndex, hw] using ih (r - w) h1 h2

theorem getD_mem_of_lt (l : List Restaurant) (n : Nat) (d : Restaurant)
    (h : n < l.length) : l.getD n d ∈ l := by
  induction l generalizing n with
  | nil => simp at h
  | cons x xs ih =>
    cases n with
    | zero => simp [List.getD]
    | succ n =>
      have := ih n (by simpa using h)
      simp [List.getD] at this ⊢
      right
      exact this

theorem getD_map_weight (l : List Restaurant) (n : Nat) (d : Restaurant) :
    (l.map weightOf).getD n (weightOf d) = weightOf (l.getD n d) := by
  induction l generalizing n with
  | nil => simp [List.getD]
  | cons x xs ih =>
    cases n with
    | zero => simp [List.getD]
    | succ n =>
      have := ih n
      simp [List.getD] at this ⊢

theorem map_ite_eq_self {p : Bewertung → Bool} {f : Bewertung → Bewertung}
    (l : List Bewertung) (h : ∀ b ∈ l, p b = false) :
    l.map (fun b => if p b then f b else b) = l := by
  induction l with
  | nil => rfl
  | cons x xs ih =>
    have hx : p x = false := h x (List.mem_cons_self _ _)
    have := ih (fun b hb => h b (List.mem_cons_of_mem _ hb))
    simp [hx, this]

theorem mem_map_ite_of_match {p : Bewertung → Bool} {f : Bewertung → Bewertung}
    {l : List Bewertung} {b : Bewertung} (hb : b ∈ l) (hp : p b = true) :
    f b ∈ l.map (fun b => if p b then f b else b) := by
  induction l with
  | nil => simp at hb
  | cons x xs ih =>
    rcases List.mem_cons.mp hb with h | h
    · subst h
      rw [List.map_cons]
      exact List.mem_cons.mpr (Or.inl (by rw [hp]; rfl))
    · rw [List.map_cons]
      exact List.mem_cons.mpr (Or.inr (ih h))

/-! Concrete fixtures used by the claim theorems. -/

/-- Candidate with the given place id, external rating and own rating. -/
def mkCand (pid : String) (ext own : Option Int) : Restaurant :=
  { place_id := pid, name := pid, rating := ext, own_rating := own,
    homepage := none, maps_url := none, phone_number := none, adr := none }

def restA3 : Restaurant := mkCand "A" (some 3) none

def restB3 : Restaurant := mkCand "B" (some 3) none

def restNone : Restaurant := mkCand "N" none none

/-- Claim C1.  The claim says `filter_rating` returns exactly the candidates
with external rating (0 when absent) at least the threshold.  The code
removes from the list while iterating it: after removing `restA3` (rating 3
< 4) the cursor skips `restB3`, so `restB3` — also rated 3, below the
threshold 4 — survives; and a candidate with an absent rating makes
`res.rating < rating` raise `TypeError` instead of being excluded as
rating 0. -/
theorem c1_filter_rating_skips_and_raises :
    filter_rating [restA3, restB3] 4 = .ok [restB3] ∧
    restB3.rating.getD 0 < 4 ∧
    filter_rating [restNone] 1 =
      .error "TypeError: not supported between instances of NoneType and int" :=
  ⟨rfl, by decide, rfl⟩

def gA : Restaurant := mkCand "GA" (some 4) none

def gB : Restaurant := mkCand "GB" (some 3) none

def gC : Restaurant := mkCand "GC" (some 5) none

/-- A service answering the first request with results `[gA, gB]` and a
continuation token, and the tokened request with `[gC]` and no token. -/
def svcTwoPages : Option String → GPage
  | none => { results := [gA, gB], next_page_token := some "TOK" }
  | some _ => { results := [gC], next_page_token := none }

/-- A details oracle deriving each detail field from the place id. -/
def detailsFor (pid : String) : PlaceDetails :=
  { website := some ("w-" ++ pid), url := some ("u-" ++ pid),
    international_phone_number := some ("p-" ++ pid),
    formatted_address := some ("a-" ++ pid) }

/-- `cand` as `place_details detailsFor` enriches it. -/
def enrich (cand : Restaurant) : Restaurant :=
  { cand with
    homepage := some ("w-" ++ cand.place_id)
    maps_url := some ("u-" ++ cand.place_id)
    phone_number := some ("p-" ++ cand.place_id)
    adr := some ("a-" ++ cand.place_id) }

/-- Weight of the candidate the `select_restaurant` loop mutates: replacing
absent ratings by `some 0` leaves the weight unchanged. -/
theorem weightOf_clearNoneRatings (res : Restaurant) :
    weightOf (clearNoneRatings res) = weightOf res := by
  cases res.own_rating <;> cases res.rating <;> simp [weightOf, clearNoneRatings]

/-- The weights the `select_restaurant` loop computes are the weights of the
mutated candidates. -/
theorem selectLoop_snd_eq_map_fst (rests : List Restaurant) :
    (selectLoop rests).2 = (selectLoop rests).1.map weightOf := by
  rw [selectLoop_fst, selectLoop_snd, List.map_map]
  exact (List.map_congr_left (fun res _ => (weightOf_clearNoneRatings res).symm))

theorem randomChoices1_ok (population : List Restaurant) (weights : List Int)
    (r : Int) (hlen : weights.length = population.length) (hne : population ≠ [])
    (h0 : 0 ≤ r) (hr : r < sumW weights) :
    randomChoices1 population weights r =
      .ok (population.getD (pickIndex weights r) dummyRestaurant) := by
  have hpick : pickIndex weights r < population.length := by
    rw [← hlen]
    exact pickIndex_lt weights r h0 hr
  have hempty : population.isEmpty = false := by
    cases population
    · cases hne rfl
    · rfl
  have hmin : min (pickIndex weights r) (population.length - 1) = pickIndex weights r := by
    omega
  rw [randomChoices1, hempty]
  simp only [Bool.false_eq_true, if_false]
  rw [if_neg (by omega), hmin]

theorem randomChoices1_all_zero (population : List Restaurant) (weights : List Int)
    (r : Int) (hne : population ≠ []) (htot : sumW weights ≤ 0) :
    randomChoices1 population weights r =
      .error "ValueError: Total of weights must be greater than zero" := by
  have hempty : population.isEmpty = false := by
    cases population
    · cases hne rfl
    · rfl
  rw [randomChoices1, hempty]
  simp only [Bool.false_eq_true, if_false]
  rw [if_pos htot]

/-- Claim C2.  For the two-page service the pagination loop `nearby_search`
does concatenate both pages, and `place_details` does enrich every candidate
with the four detail fields — but `search_restaurant` itself, lacking a
`return` statement, returns `None` rather than that list, contradicting its
own docstring and signature (`-> List[Restaurant]`). -/
theorem c2_search_restaurant_returns_none :
    nearby_search svcTwoPages 5 none = some [gA, gB, gC] ∧
    place_details detailsFor [gA, gB, gC] = [enrich gA, enrich gB, enrich gC] ∧
    search_restaurant svcTwoPages detailsFor 5 = none :=
  ⟨rfl, by decide, rfl⟩

def zeroCand : Restaurant := mkCand "Z" (some 0) (some 0)

def posCand : Restaurant := mkCand "C" (some 1) (some 1)

/-- Total selection weight of a candidate list, as summed by the weighted
draw (`cum_weights[-1]`). -/
def totalWeight (rests : List Restaurant) : Int := sumW (selectLoop rests).2

/-- Claim C3 counterexample.  The claim says that for every non-empty
candidate list the draw returns a candidate, falling back to a uniform
choice when every weight is 0.  On the non-empty list `[zeroCand]`
(both ratings 0, hence weight 0) `random.choices` raises `ValueError`
instead. -/
theorem c3_counterexample_all_zero_raises :
    select_restaurant [zeroCand] 0 =
      .error "ValueError: Total of weights must be greater than zero" := rfl

/-- Claim C3 (amended).  For every non-empty candidate list and draw value
`0 ≤ r <` total weight, `select_restaurant` succeeds and returns a candidate
of the (mutated) list, and that candidate always has positive weight — a
zero-weight candidate stays in the list but is never the one drawn; when
every candidate's weight is 0 the draw does not fall back to a uniform
choice but raises `ValueError`. -/
theorem c3_select_restaurant_amended :
    (∀ (rests : List Restaurant) (r : Int), rests ≠ [] → 0 ≤ r →
      r < totalWeight rests →
      ∃ chosen, select_restaurant rests r = .ok ((selectLoop rests).1, chosen) ∧
        chosen ∈ (selectLoop rests).1 ∧ 0 < weightOf chosen) ∧
    (∀ (rests : List Restaurant) (r : Int), rests ≠ [] →
      (∀ res ∈ rests, weightOf res = 0) →
      select_restaurant rests r =
        .error "ValueError: Total of weights must be greater than zero") := by
  constructor
  · intro rests r hne h0 hr
    have hr' : r < sumW (selectLoop rests).2 := hr
    have hlen : (selectLoop rests).2.length = (selectLoop rests).1.length := by
      rw [selectLoop_fst, selectLoop_snd]
      simp
    have hmne : (selectLoop rests).1 ≠ [] := by
      rw [selectLoop_fst]
      simpa using hne
    have hok := randomChoices1_ok (selectLoop rests).1 (selectLoop rests).2 r hlen hmne h0 hr'
    have hpick : pickIndex (selectLoop rests).2 r < (selectLoop rests).1.length := by
      rw [← hlen]
      exact pickIndex_lt _ _ h0 hr'
    refine ⟨(selectLoop rests).1.getD (pickIndex (selectLoop rests).2 r) dummyRestaurant,
      ?_, ?_, ?_⟩
    · simp only [select_restaurant]
      rw [hok]
    · exact getD_mem_of_lt _ _ _ hpick
    · have hpos := pickIndex_pos_weight (selectLoop rests).2 r h0 hr'
      have hd : weightOf dummyRestaurant = 0 := by decide
      calc 0 < (selectLoop rests).2.getD (pickIndex (selectLoop rests).2 r) 0 := hpos
        _ = ((selectLoop rests).1.map weightOf).getD (pickIndex (selectLoop rests).2 r)
              (weightOf dummyRestaurant) := by
            rw [selectLoop_snd_eq_map_fst, hd]
        _ = weightOf ((selectLoop rests).1.getD (pickIndex (selectLoop rests).2 r)
              dummyRestaurant) := getD_map_weight _ _ _
  · intro rests r hne hz
    have hzw : ∀ w ∈ (selectLoop rests).2, w = 0 := by
      rw [selectLoop_snd]
      intro w hw
      obtain ⟨res, hres, hwe⟩ := List.mem_map.mp hw
      rw [← hwe]
      exact hz res hres
    have htot : sumW (selectLoop rests).2 ≤ 0 :=
      le_of_eq (sumW_eq_zero_of_all_zero _ hzw)
    have hmne : (selectLoop rests).1 ≠ [] := by
      rw [selectLoop_fst]
      simpa using hne
    have herr := randomChoices1_all_zero (selectLoop rests).1 (selectLoop rests).2 r hmne htot
    simp only [select_restaurant]
    rw [herr]

/-- Claim C3 witness: the amended theorem applied to the one-candidate list
`[posCand]` (weight 6, draw 0) and to the all-zero list `[zeroCand]`. -/
theorem c3_select_restaurant_amended_witness :
    (∃ chosen, select_restaurant [posCand] 0 = .ok ((selectLoop [posCand]).1, chosen) ∧
      chosen ∈ (selectLoop [posCand]).1 ∧ 0 < weightOf chosen) ∧
    select_restaurant [zeroCand] 1 =
      .error "ValueError: Total of weights must be greater than zero" :=
  ⟨c3_select_restaurant_amended.1 [posCand] 0 (by decide) (by decide) (by decide),
   c3_select_restaurant_amended.2 [zeroCand] 1 (by decide) (by decide)⟩

def candG : Restaurant := mkCand "G" (some 4) none

def searchFilter : FilterRest := { cuisine := "pizza", radius := 5000, rating := 0 }

def dbUserOnly : DB :=
  { users := ["u@example.com"], restaurants := [], bewertungen := [] }

def dbUserAndG : DB :=
  { users := ["u@example.com"], restaurants := ["G"], bewertungen := [] }

/-- The rating row `search_for_restaurant` records for the visit (comment and
rating unset). -/
def visitRow : Bewertung :=
  { person_email := "u@example.com", place_id := "G", kommentar := none, rating := none }

/-- Claim C4.  The claim says the chosen restaurant is persisted and rated
exactly when it is *not* already known.  The code tests
`if get_restaurant_by_id(...)` — acting when the restaurant *is* already
known: with the chosen restaurant `G` unknown (`get_restaurant_by_id` is
`none`) the store comes back unchanged, no restaurant and no rating created;
with `G` already present the code inserts the restaurant a second time and
creates a rating.  The spec (section 9) itself flags this conditional as
inverted. -/
theorem c4_bookkeeping_inverted :
    get_restaurant_by_id dbUserOnly "G" = none ∧
    search_for_restaurant dbUserOnly "u@example.com" [candG] searchFilter 0 =
      .ok (dbUserOnly, clearNoneRatings candG) ∧
    get_restaurant_by_id dbUserAndG "G" = some "G" ∧
    search_for_restaurant dbUserAndG "u@example.com" [candG] searchFilter 0 =
      .ok ({ users := ["u@example.com"], restaurants := ["G", "G"],
             bewertungen := [visitRow] },
           clearNoneRatings candG) :=
  ⟨rfl, rfl, rfl, rfl⟩

def dbForRatings : DB :=
  { users := ["u@example.com"], restaurants := ["P"], bewertungen := [] }

def ratingInput : RestBewertungCreate :=
  { person_email := "u@example.com", restaurant_place_id := "P",
    comment := some "great", rating := some 3 }

def ratingRow : Bewertung := mkBewertungRow ratingInput

/-- Claim C5.  The claim says that after `create` succeeds and is invoked
again for the same (user, restaurant) pair the store holds exactly one entry
for the pair.  `create_bewertung` checks only that the user and the
restaurant exist — there is no duplicate pre-check (and per spec section 5 no
storage-level uniqueness constraint) — so the second call appends a second
identical row and the pair ends with two entries, contradicting
`add_assessment`'s own docstring ("Raises ... if ... the assessment is
duplicated"). -/
theorem c5_duplicate_create_inserts_second_row :
    create_bewertung dbForRatings ratingInput =
      .ok ({ dbForRatings with bewertungen := [ratingRow] }, ratingRow) ∧
    create_bewertung { dbForRatings with bewertungen := [ratingRow] } ratingInput =
      .ok ({ dbForRatings with bewertungen := [ratingRow, ratingRow] }, ratingRow) ∧
    List.countP (fun b => b.person_email == "u@example.com" && b.place_id == "P")
      (DB.bewertungen { dbForRatings with bewertungen := [ratingRow, ratingRow] }) = 2 :=
  ⟨rfl, rfl, by decide⟩

/-- Claim C6.  `create_bewertung` checks its referential-integrity
preconditions explicitly, before any mutation: a missing user raises
`InvalidRequestError` naming the user, a present user with a missing
restaurant raises `InvalidRequestError` naming the restaurant — in both
cases only the error comes back, never a modified store — and when both
exist, the new rating row is appended to the store. -/
theorem c6_create_bewertung_referential_integrity :
    (∀ (db : DB) (a : RestBewertungCreate),
      get_user_by_mail db a.person_email = none →
      create_bewertung db a = .error "InvalidRequestError: User does not exist") ∧
    (∀ (db : DB) (a : RestBewertungCreate),
      (get_user_by_mail db a.person_email).isSome →
      get_restaurant_by_id db a.restaurant_place_id = none →
      create_bewertung db a = .error "InvalidRequestError: Restaurant does not exist") ∧
    (∀ (db : DB) (a : RestBewertungCreate),
      (get_user_by_mail db a.person_email).isSome →
      (get_restaurant_by_id db a.restaurant_place_id).isSome →
      create_bewertung db a =
        .ok ({ db with bewertungen := db.bewertungen ++ [mkBewertungRow a] },
             mkBewertungRow a)) := by
  refine ⟨?_, ?_, ?_⟩
  · intro db a h
    simp [create_bewertung, h]
  · intro db a hu hr
    obtain ⟨u, hu'⟩ := Option.isSome_iff_exists.mp hu
    simp [create_bewertung, hu', hr]
  · intro db a hu hr
    obtain ⟨u, hu'⟩ := Option.isSome_iff_exists.mp hu
    obtain ⟨v, hr'⟩ := Option.isSome_iff_exists.mp hr
    simp [create_bewertung, hu', hr']

def dbNoUser : DB := { users := [], restaurants := ["P"], bewertungen := [] }

/-- Claim C6 witness: the theorem applied to a store without the user, a
store with the user but without the restaurant, and a store with both. -/
theorem c6_create_bewertung_witness :
    create_bewertung dbNoUser ratingInput =
      .error "InvalidRequestError: User does not exist" ∧
    create_bewertung dbUserOnly ratingInput =
      .error "InvalidRequestError: Restaurant does not exist" ∧
    create_bewertung dbForRatings ratingInput =
      .ok ({ dbForRatings with bewertungen := [mkBewertungRow ratingInput] },
           mkBewertungRow ratingInput) :=
  ⟨c6_create_bewertung_referential_integrity.1 dbNoUser ratingInput rfl,
   c6_create_bewertung_referential_integrity.2.1 dbUserOnly ratingInput rfl rfl,
   c6_create_bewertung_referential_integrity.2.2 dbForRatings ratingInput rfl rfl⟩

def scenarioCand : Restaurant := mkCand "A" (some 5) none

/-- Claim C7.  The weights the draw loop computes are exactly
`own_rating * 4 + external_rating * 2` with each absent component counting
as 0; in particular a candidate with absent own rating and external rating 5
gets weight `0 * 4 + 5 * 2 = 10`. -/
theorem c7_weights_formula :
    (∀ rests : List Restaurant,
      (selectLoop rests).2 =
        rests.map (fun res => res.own_rating.getD 0 * 4 + res.rating.getD 0 * 2)) ∧
    (selectLoop [scenarioCand]).2 = [10] :=
  ⟨fun rests => selectLoop_snd rests, by decide⟩

/-- Claim C8 counterexample.  The claim says an update against a rating that
does not exist is a silent no-op raising no error.  With no matching row the
bulk UPDATE indeed affects 0 rows, but `update_assessment` then reads
`.kommentar` off the `None` that the re-read returned, raising
`AttributeError`. -/
theorem c8_counterexample_update_assessment_raises :
    update_assessment dbForRatings ratingInput ratingInput =
      .error "AttributeError: NoneType object has no attribute kommentar" := rfl

/-- Claim C8 (amended).  `update_bewertung` itself behaves as claimed: with
no row matching the old (user, restaurant) identity it affects 0 rows and
leaves the store unchanged, and for every matching row it replaces exactly
the comment and rating fields.  `update_assessment`, however, is not silent
in the no-match case: it fails with `AttributeError` when the re-read finds
no row (shown here for a store without ratings). -/
theorem c8_update_amended :
    (∀ (db : DB) (oldb newb : RestBewertungCreate),
      db.bewertungen.countP (fun b => matchesOld oldb b) = 0 →
      (update_bewertung db oldb newb).1 = db ∧
        (update_bewertung db oldb newb).2.1 = 0) ∧
    (∀ (db : DB) (oldb newb : RestBewertungCreate) (b : Bewertung),
      b ∈ db.bewertungen → matchesOld oldb b = true →
      { b with kommentar := newb.comment, rating := newb.rating } ∈
        (update_bewertung db oldb newb).1.bewertungen) ∧
    (∀ (db : DB) (oldb newb : RestBewertungCreate),
      db.bewertungen = [] →
      update_assessment db oldb newb =
        .error "AttributeError: NoneType object has no attribute kommentar") := by
  refine ⟨?_, ?_, ?_⟩
  · intro db oldb newb h
    have hall : ∀ b ∈ db.bewertungen, matchesOld oldb b = false := by
      intro b hb
      simpa using List.countP_eq_zero.mp h b hb
    constructor
    · simp only [update_bewertung]
      rw [map_ite_eq_self _ hall]
    · simp only [update_bewertung]
      exact h
  · intro db oldb newb b hb hp
    simp only [update_bewertung]
    exact mem_map_ite_of_match hb hp
  · intro db oldb newb h
    simp [update_assessment, update_bewertung, get_bewertung_from_user_to_rest, h]

/-- Claim C8 witness: the amended theorem applied to a store without ratings
(no-match update, AttributeError) and to a store holding the matching row. -/
theorem c8_update_amended_witness :
    ((update_bewertung dbForRatings ratingInput ratingInput).1 = dbForRatings ∧
      (update_bewertung dbForRatings ratingInput ratingInput).2.1 = 0) ∧
    ({ ratingRow with kommentar := some "great", rating := some 3 } ∈
      (update_bewertung { dbForRatings with bewertungen := [ratingRow] }
        ratingInput ratingInput).1.bewertungen) ∧
    update_assessment dbForRatings ratingInput ratingInput =
      .error "AttributeError: NoneType object has no attribute kommentar" :=
  ⟨c8_update_amended.1 dbForRatings ratingInput ratingInput (by decide),
   c8_update_amended.2.1 { dbForRatings with bewertungen := [ratingRow] }
     ratingInput ratingInput ratingRow (by decide) (by decide),
   c8_update_amended.2.2 dbForRatings ratingInput ratingInput rfl⟩

def mixedCand : Restaurant := mkCand "M" none (some 1)

/-- Claim C9 counterexample.  The claim says no later stage mutates any
candidate field except the enrichment's own-rating attachment.  The draw
stage, however, overwrites an absent external rating with `0`: `mixedCand`
enters with `rating = none` and leaves the (in Python, in-place mutated)
list with `rating = some 0`. -/
theorem c9_counterexample_draw_mutates :
    mixedCand.rating = none ∧
    select_restaurant [mixedCand] 0 =
      .ok ([clearNoneRatings mixedCand], clearNoneRatings mixedCand) ∧
    (clearNoneRatings mixedCand).rating = some 0 :=
  ⟨rfl, rfl, rfl⟩

/-- Claim C9 (amended).  The filter stage only removes candidates (its
output is a sublist of its input, so every surviving candidate is
field-for-field an input candidate); the enrichment stage changes nothing
but `own_rating`; and the draw stage rewrites each candidate by exactly
`clearNoneRatings` — replacing absent own and external ratings by `some 0`
and, as the last conjunct shows field by field, touching nothing else. -/
theorem c9_frame_amended :
    (∀ (rests : List Restaurant) (rating : Int) (out : List Restaurant),
      filter_rating rests rating = .ok out → out.Sublist rests) ∧
    (∀ (db : DB) (rests : List Restaurant) (user : String),
      (fill_user_rating db rests user).map (fun res => { res with own_rating := none }) =
        rests.map (fun res => { res with own_rating := none })) ∧
    (∀ rests : List Restaurant, (selectLoop rests).1 = rests.map clearNoneRatings) ∧
    (∀ res : Restaurant,
      (clearNoneRatings res).place_id = res.place_id ∧
      (clearNoneRatings res).name = res.name ∧
      (clearNoneRatings res).homepage = res.homepage ∧
      (clearNoneRatings res).maps_url = res.maps_url ∧
      (clearNoneRatings res).phone_number = res.phone_number ∧
      (clearNoneRatings res).adr = res.adr) := by
  refine ⟨?_, ?_, selectLoop_fst, ?_⟩
  · intro rests rating out h
    exact filterRatingLoop_sublist _ _ _ _ _ h
  · intro db rests user
    unfold fill_user_rating
    rw [List.map_map]
    apply List.map_congr_left
    intro res _
    simp only [Function.comp]
    cases get_bewertung_from_user_to_rest db user res.place_id <;> rfl
  · intro res
    exact ⟨rfl, rfl, rfl, rfl, rfl, rfl⟩

/-- Claim C9 witness: the amended theorem applied to the singleton list
`[restA3]` (which the threshold-0 filter keeps), to an enrichment pass over
it, and to the draw-stage rewrite of `[mixedCand]`. -/
theorem c9_frame_amended_witness :
    [restA3].Sublist [restA3] ∧
    ((fill_user_rating dbForRatings [restA3] "u@example.com").map
        (fun res => { res with own_rating := none }) =
      [restA3].map (fun res => { res with own_rating := none })) ∧
    (selectLoop [mixedCand]).1 = [mixedCand].map clearNoneRatings ∧
    (clearNoneRatings mixedCand).place_id = mixedCand.place_id :=
  ⟨c9_frame_amended.1 [restA3] 0 [restA3] rfl,
   c9_frame_amended.2.1 dbForRatings [restA3] "u@example.com",
   c9_frame_amended.2.2.1 [mixedCand],
   (c9_frame_amended.2.2.2 mixedCand).1⟩

/-- Claim C10.  On an empty candidate list the draw does not return a
candidate: `random.choices` raises `IndexError` (at `cum_weights[-1]`), and
`search_for_restaurant` — which wraps none of its pipeline stages in a
handler — propagates that exception to its caller instead of signaling one
of the defined error kinds (`GoogleApiException`, `InvalidRequestError`);
in particular this happens whenever the filter stage returns an empty
list. -/
theorem c10_empty_draw_propagates :
    (∀ r : Int,
      select_restaurant [] r = .error "IndexError: list index out of range") ∧
    (∀ (db : DB) (user : String) (google_rests : List Restaurant)
        (user_f : FilterRest) (r : Int),
      apply_filter google_rests user_f = .ok [] →
      search_for_restaurant db user google_rests user_f r =
        .error "IndexError: list index out of range") := by
  constructor
  · intro r
    rfl
  · intro db user google_rests user_f r h
    simp only [search_for_restaurant]
    rw [h]
    rfl

def lowCand : Restaurant := mkCand "L" (some 1) none

def strictFilter : FilterRest := { cuisine := "pizza", radius := 5000, rating := 5 }

/-- Claim C10 witness: the theorem applied to the empty list directly and to
a search whose only candidate (rating 1) the threshold-5 filter removes. -/
theorem c10_empty_draw_propagates_witness :
    select_restaurant [] 0 = .error "IndexError: list index out of range" ∧
    search_for_restaurant dbUserOnly "u@example.com" [lowCand] strictFilter 0 =
      .error "IndexError: list index out of range" :=
  ⟨c10_empty_draw_propagates.1 0,
   c10_empty_draw_propagates.2 dbUserOnly "u@example.com" [lowCand] strictFilter 0 rfl⟩

end Essensfindung
